import Mathlib

/-
  Verification development for the paymongo-backend repository.

  Shallow embedding of:
  - the webhook signature check (src/server.js, timingSafeEqual and
    verifyWebhookSignature, lines 50-83);
  - the payment webhook reconciliation handler (src/server.js, the
    POST /paymongo/webhook route, lines 228-305);
  - the auto-dispatch cycle (src/auto-dispatch/server.js, haversineKm and
    the POST /dispatch/run route, lines 21-135).

  External collaborators (HMAC-SHA256, JSON parsing, the document store
  client) are abstracted: the HMAC is a function parameter, a parsed event
  is a structure, the store is an explicit association list, and the
  transactional retry behaviour of the store client is an oracle telling
  how often each transaction closure runs and whether the transaction
  ultimately throws.
-/

set_option maxHeartbeats 1000000

namespace PaymongoBackend

/-! ## Webhook signature verification (src/server.js lines 50-83) -/

/-- src/server.js lines 50-55: byte-length check then constant-time
comparison.  Two utf8 byte sequences are equal exactly when the strings
are equal, so the Bool result is equality guarded by a length check. -/
def timingSafeEqual (a b : String) : Bool :=
  if a.length ≠ b.length then false else a == b

/-- JS String.prototype.split with a one-character separator, on
character lists: empty input gives one empty group, a trailing
separator a trailing empty group. -/
def splitOnChar (sep : Char) : List Char → List (List Char)
  | [] => [[]]
  | c :: rest =>
    if c = sep then [] :: splitOnChar sep rest
    else
      match splitOnChar sep rest with
      | [] => [[c]]
      | group :: groups => (c :: group) :: groups

/-- JS String.prototype.trim on character lists: drop whitespace from
both ends. -/
def trimChars (cs : List Char) : List Char :=
  ((cs.dropWhile Char.isWhitespace).reverse.dropWhile Char.isWhitespace).reverse

/-- JS String.prototype.toLowerCase, charwise. -/
def toLowerStr (s : String) : String :=
  ⟨s.toList.map Char.toLower⟩

/-- src/server.js lines 59-63: split the header on commas, split each
entry on the first two equality signs, keep entries whose first two
pieces are nonempty (JS truthiness of key and value), trim both.  Later
entries overwrite earlier ones in the JS object; here the list keeps all
writes in order and lookup takes the last one. -/
def parseSigHeader (h : String) : List (String × String) :=
  (splitOnChar ',' h.toList).foldl
    (fun acc entry =>
      match splitOnChar '=' entry with
      | key :: value :: _ =>
        if key ≠ [] ∧ value ≠ [] then
          acc ++ [((trimChars key).asString, (trimChars value).asString)]
        else acc
      | _ => acc) []

/-- Reading a key of the JS accumulator object: the last write wins. -/
def getPart (parts : List (String × String)) (k : String) : Option String :=
  parts.reverse.lookup k

/-- All-digit character list to its numeric value, none otherwise. -/
def digitsToNat? (cs : List Char) : Option Nat :=
  if cs ≠ [] ∧ cs.all (·.isDigit) then
    some (cs.foldl (fun acc c => acc * 10 + (c.toNat - 48)) 0)
  else none

/-- src/server.js line 77: Number(timestamp) followed by the
Number.isFinite check, restricted to optional-sign decimal integer
literals (the domain of provider timestamps); other JS numeric forms
(fractions, exponents, hex) are outside the model and map to none, as
NaN does. -/
def jsNumberInt (s : String) : Option Int :=
  match s.toList with
  | '-' :: rest => (digitsToNat? rest).map (fun n => -(n : Int))
  | '+' :: rest => (digitsToNat? rest).map (fun n => (n : Int))
  | cs => (digitsToNat? cs).map (fun n => (n : Int))

/-- src/server.js line 66: the mode-selected signature key. -/
def signatureKeyFor (mode : String) : String :=
  if toLowerStr mode = "live" then "li" else "te"

/-- src/server.js lines 65-82, after the header has been parsed: check
presence and JS truthiness of the timestamp and the mode-selected
signature, recompute the expected hex digest, enforce the 300 second
freshness window on the parsed timestamp, then compare. -/
def verifyFromParts (hmacHex : String → String) (now : Int) (rawBody : String)
    (tPart sigPart : Option String) : Bool :=
  match tPart, sigPart with
  | some timestamp, some signature =>
    if timestamp = "" ∨ signature = "" then false
    else
      let expected := hmacHex (timestamp ++ "." ++ rawBody)
      match jsNumberInt timestamp with
      | none => false
      | some ts =>
        if (now - ts).natAbs > 300 then false
        else timingSafeEqual expected signature
  | _, _ => false

/-- src/server.js lines 57-83: verifyWebhookSignature.  The HMAC-SHA256
of the configured webhook secret is abstracted as the function parameter
hmacHex (payload to lowercase hex digest); a missing header is none and
an empty header is rejected by the JS falsiness check. -/
def verifyWebhookSignature (hmacHex : String → String) (mode : String)
    (now : Int) (rawBody : String) (signatureHeader : Option String) : Bool :=
  match signatureHeader with
  | none => false
  | some h =>
    if h = "" then false
    else
      verifyFromParts hmacHex now rawBody
        (getPart (parseSigHeader h) "t")
        (getPart (parseSigHeader h) (signatureKeyFor mode))

/-! ## Shared store helper -/

/-- Overwrite the first entry of an association list holding the given
key (document update; the document is known to exist when called). -/
def updateEntry {β : Type} (xs : List (String × β)) (k : String) (v : β) :
    List (String × β) :=
  match xs with
  | [] => []
  | (k', v') :: rest =>
    if k = k' then (k', v) :: rest else (k', v') :: updateEntry rest k v

/-! ## Payment webhook reconciliation (src/server.js lines 228-305) -/

/-- An order document as the webhook handler reads and writes it.
Fields the handler never touches are omitted; a missing string field of
the document reads as the empty string (it compares unequal to the
status literals, as undefined does in JS). -/
structure PaymentOrder where
  paymentStatus : String := ""
  status : String := ""
  paidAt : Option Nat := none
  paymentProvider : Option String := none
  paymentIntentId : Option String := none
  paymentReference : Option String := none
  updatedAt : Option Nat := none
deriving DecidableEq, Repr

/-- The fields the handler extracts from a parsed webhook event
(src/server.js lines 243-251): the event type, the payment intent id
after the three-way fallback chain, the order id after the
metadata.orderId / metadata.order_id fallback chain, and the event data
id used as payment reference. -/
structure WebhookEvent where
  eventType : Option String := none
  paymentIntentId : Option String := none
  orderIdMeta : Option String := none
  eventDataId : Option String := none
deriving DecidableEq, Repr

/-- The orders collection: document id to document, first entry wins on
lookup. -/
abbrev OrderStore := List (String × PaymentOrder)

/-- The three response shapes of the webhook route: 400 invalid
signature, 400 invalid payload, 200 with received true. -/
inductive WebhookResponse where
  | invalidSignature
  | invalidPayload
  | received
deriving DecidableEq, Repr

/-- src/server.js lines 251-262: order correlation, metadata first, then
the limit-1 query on paymentIntentId. -/
def resolveOrderId (store : OrderStore) (ev : WebhookEvent) : Option String :=
  match ev.orderIdMeta with
  | some oid => some oid
  | none =>
    match ev.paymentIntentId with
    | some pid =>
      (store.find? (fun p => p.2.paymentIntentId == some pid)).map (fun p => p.1)
    | none => none

/-- src/server.js lines 228-305: the POST /paymongo/webhook handler
after signature verification and JSON parsing, whose outcomes enter as
sigValid and event (none for an unparseable payload).  The server
timestamp is the parameter now.  Returns the response and the store
after the handler ran. -/
def reconcileWebhook (store : OrderStore) (sigValid : Bool)
    (event : Option WebhookEvent) (now : Nat) : WebhookResponse × OrderStore :=
  if ¬sigValid then (.invalidSignature, store)
  else
    match event with
    | none => (.invalidPayload, store)
    | some ev =>
      match resolveOrderId store ev with
      | none => (.received, store)
      | some oid =>
        match store.lookup oid with
        | none => (.received, store)
        | some od =>
          if od.paymentStatus = "paid" ∨ od.status = "paid" then
            (.received, store)
          else if ev.eventType = some "payment.paid" then
            (.received, updateEntry store oid
              { od with
                paymentStatus := "paid"
                status := "paid"
                paidAt := some now
                paymentProvider := some "paymongo"
                paymentIntentId := ev.paymentIntentId
                paymentReference := ev.eventDataId
                updatedAt := some now })
          else if ev.eventType = some "payment.failed" ∨
              ev.eventType = some "qrph.expired" then
            (.received, updateEntry store oid
              { od with
                paymentStatus :=
                  if ev.eventType = some "qrph.expired" then "expired"
                  else "failed"
                paymentProvider := some "paymongo"
                paymentIntentId := ev.paymentIntentId
                updatedAt := some now })
          else (.received, store)

/-! ## Auto dispatch (src/auto-dispatch/server.js lines 21-135) -/

/-- A booking document as the dispatch cycle reads and writes it.
Coordinates are rational pairs; a booking whose pickup lacks numeric lat
and lng fields carries none. -/
structure Booking where
  adminStatus : String := ""
  dispatchStatus : String := ""
  status : String := ""
  riderId : Option String := none
  pickup : Option (ℚ × ℚ) := none
  matchedAt : Option Nat := none
  updatedAt : Option Nat := none
deriving DecidableEq, Repr

/-- A rider document: status and the current location when the document
has numeric lat and lng fields. -/
structure Rider where
  riderStatus : String := ""
  currentLocation : Option (ℚ × ℚ) := none
  updatedAt : Option Nat := none
deriving DecidableEq, Repr

/-- The two collections the dispatch service touches. -/
structure DispatchState where
  bookings : List (String × Booking)
  riders : List (String × Rider)
deriving DecidableEq, Repr

/-- src/auto-dispatch/server.js lines 74-85: the candidate pipeline for
one booking, with the distance function (haversineKm at the pickup)
abstracted as distTo.  Map every snapshotted rider to its distance,
keep those within the radius inclusive, sort ascending by distance.
Array.prototype.sort is stable, so mergeSort with the non-strict
comparison models it exactly. -/
def selectCandidates (distTo : ℚ × ℚ → ℚ) (radiusKm : ℚ)
    (riders : List (String × (ℚ × ℚ))) : List (String × ℚ) :=
  ((riders.map (fun r => (r.1, distTo r.2))).filter
      (fun c => decide (c.2 ≤ radiusKm))).mergeSort
    (fun a b => decide (a.2 ≤ b.2))

/-- src/auto-dispatch/server.js lines 53-65: the rider snapshot, riders
with riderStatus available and a well-formed current location. -/
def availableRiders (riders : List (String × Rider)) :
    List (String × (ℚ × ℚ)) :=
  (riders.filter (fun p => p.2.riderStatus == "available")).filterMap
    (fun p => p.2.currentLocation.map (fun loc => (p.1, loc)))

/-- src/auto-dispatch/server.js lines 92-123: one execution of the
transaction closure against the current store state.  none means the
closure returned before staging any write (missing document or failed
re-check): the transaction commits without mutating anything.  some
gives the state with both documents updated, the atomic commit. -/
def attemptAssign (st : DispatchState) (bookingId chosenRider : String)
    (now : Nat) : Option DispatchState :=
  match st.bookings.lookup bookingId with
  | none => none
  | some b =>
    if b.adminStatus ≠ "approved" ∨ b.dispatchStatus ≠ "pending" then none
    else
      match st.riders.lookup chosenRider with
      | none => none
      | some r =>
        if r.riderStatus ≠ "available" then none
        else
          some
            { bookings := updateEntry st.bookings bookingId
                { b with
                  riderId := some chosenRider
                  dispatchStatus := "assigned"
                  status := "matched"
                  matchedAt := some now
                  updatedAt := some now }
              riders := updateEntry st.riders chosenRider
                { r with riderStatus := "busy", updatedAt := some now } }

/-- Result of the POST /dispatch/run route: ok is the 200 body with
scanned and assigned, fail is the 500 dispatch_failed response of the
outer catch.  Both carry the store state when the response is sent. -/
inductive CycleResult where
  | ok (scanned assigned : Nat) (st : DispatchState)
  | fail (st : DispatchState)
deriving DecidableEq, Repr

/-- Final store state of a cycle result. -/
def cycleState : CycleResult → DispatchState
  | .ok _ _ st => st
  | .fail st => st

/-- Store state carried by the booking loop outcome. -/
def loopState : Except DispatchState (Nat × DispatchState) → DispatchState
  | .ok (_, st) => st
  | .error st => st

/-- src/auto-dispatch/server.js lines 69-124: the booking loop.  k
counts runTransaction invocations; txThrows k tells whether invocation k
ultimately throws (conflict retries exhausted or store error) - a throw
performs no write and propagates to the outer catch, so the loop stops
with error.  txRuns k is how often the transaction closure of
invocation k executes (the store client reruns it on optimistic
conflicts, at least once); the assigned counter lives outside the
closure in the source but is incremented inside it, so every completed
run of a closure that passes its re-checks adds one, while the writes
commit exactly once. -/
def runAttempts (distKm : ℚ × ℚ → ℚ × ℚ → ℚ) (radiusKm : ℚ) (now : Nat)
    (txThrows : Nat → Bool) (txRuns : Nat → Nat)
    (avail : List (String × (ℚ × ℚ))) :
    List (String × Booking) → Nat → Nat → DispatchState →
    Except DispatchState (Nat × DispatchState)
  | [], _, assigned, st => .ok (assigned, st)
  | (bid, b) :: rest, k, assigned, st =>
    match b.pickup with
    | none => runAttempts distKm radiusKm now txThrows txRuns avail rest k assigned st
    | some pickup =>
      match selectCandidates (distKm pickup) radiusKm avail with
      | [] => runAttempts distKm radiusKm now txThrows txRuns avail rest k assigned st
      | chosen :: _ =>
        if txThrows k then .error st
        else
          match attemptAssign st bid chosen.1 now with
          | none =>
            runAttempts distKm radiusKm now txThrows txRuns avail rest (k + 1) assigned st
          | some st' =>
            runAttempts distKm radiusKm now txThrows txRuns avail rest (k + 1)
              (assigned + max 1 (txRuns k)) st'

/-- src/auto-dispatch/server.js lines 37-135: one POST /dispatch/run
cycle (after the shared-secret check).  readsFail models a store failure
in the two initial collection reads; it and a throwing transaction reach
the outer catch, every other path answers with scanned and assigned. -/
def runDispatchCycle (distKm : ℚ × ℚ → ℚ × ℚ → ℚ) (radiusKm : ℚ) (now : Nat)
    (readsFail : Bool) (txThrows : Nat → Bool) (txRuns : Nat → Nat)
    (st : DispatchState) : CycleResult :=
  if readsFail then .fail st
  else
    let snapshot := st.bookings.filter
      (fun p => p.2.adminStatus == "approved" && p.2.dispatchStatus == "pending")
    if snapshot.isEmpty then .ok 0 0 st
    else
      let avail := availableRiders st.riders
      match runAttempts distKm radiusKm now txThrows txRuns avail snapshot 0 0 st with
      | .ok (assigned, st') => .ok snapshot.length assigned st'
      | .error st' => .fail st'

/-! ## Geo distance (src/auto-dispatch/server.js lines 21-31) -/

open Real in
/-- src/auto-dispatch/server.js lines 21-31: the haversine great-circle
distance in kilometres, on exact reals (the JS floats idealized). -/
noncomputable def haversineKm (lat1 lon1 lat2 lon2 : ℝ) : ℝ :=
  let R : ℝ := 6371
  let dLat := (lat2 - lat1) * π / 180
  let dLon := (lon2 - lon1) * π / 180
  let a := sin (dLat / 2) ^ 2 +
    cos (lat1 * π / 180) * cos (lat2 * π / 180) * sin (dLon / 2) ^ 2
  2 * R * arcsin (Real.sqrt a)

/-! ## Concrete inputs used by the witnesses -/

/-- A store with one already-paid order and one pending order. -/
def demoStore : OrderStore :=
  [("o1", { paymentStatus := "paid", status := "paid", paidAt := some 1 }),
   ("o2", { paymentStatus := "pending", status := "pending",
            paymentIntentId := some "pi2" })]

/-- A paid event for the pending order o2. -/
def demoEvPaid : WebhookEvent :=
  { eventType := some "payment.paid", paymentIntentId := some "pi2",
    orderIdMeta := some "o2", eventDataId := some "pay9" }

/-- A paid event for the already-paid order o1. -/
def demoEvDup : WebhookEvent :=
  { eventType := some "payment.paid", paymentIntentId := some "pi1",
    orderIdMeta := some "o1", eventDataId := some "pay1" }

/-- Dispatch store: one already-assigned booking, one approved pending
booking with a pickup, one available rider with a location, one busy
rider. -/
def demoDispatch : DispatchState :=
  { bookings :=
      [("b0", { adminStatus := "approved", dispatchStatus := "assigned",
                status := "matched", riderId := some "r9",
                pickup := some (3, 3) }),
       ("b1", { adminStatus := "approved", dispatchStatus := "pending",
                status := "approved", pickup := some (0, 0) })]
    riders :=
      [("r1", { riderStatus := "available", currentLocation := some (0, 0) }),
       ("r2", { riderStatus := "busy", currentLocation := some (0, 0) })] }

/-- Minimal dispatch store for the counter evaluations: one approved
pending booking, one available rider. -/
def demoDispatchOne : DispatchState :=
  { bookings := [("b1", { adminStatus := "approved", dispatchStatus := "pending",
                          status := "approved", pickup := some (0, 0) })]
    riders := [("r1", { riderStatus := "available",
                        currentLocation := some (0, 0) })] }

/-- demoDispatchOne after the single assignment committed at time 5. -/
def demoDispatchOneAfter : DispatchState :=
  { bookings := [("b1", { adminStatus := "approved", dispatchStatus := "assigned",
                          status := "matched", riderId := some "r1",
                          pickup := some (0, 0), matchedAt := some 5,
                          updatedAt := some 5 })]
    riders := [("r1", { riderStatus := "busy", currentLocation := some (0, 0),
                        updatedAt := some 5 })] }

/-- Dispatch store with two approved pending bookings and two available
riders, used to show a throwing transaction stops the whole cycle. -/
def demoDispatchTwo : DispatchState :=
  { bookings :=
      [("b1", { adminStatus := "approved", dispatchStatus := "pending",
                status := "approved", pickup := some (0, 0) }),
       ("b2", { adminStatus := "approved", dispatchStatus := "pending",
                status := "approved", pickup := some (1, 1) })]
    riders :=
      [("r1", { riderStatus := "available", currentLocation := some (0, 0) }),
       ("r2", { riderStatus := "available", currentLocation := some (1, 1) })] }

/-- Rider positions for the candidate selection witness, with a distance
tie between r1 and r2. -/
def demoGeoRiders : List (String × (ℚ × ℚ)) :=
  [("r1", (1, 0)), ("r2", (1, 5)), ("r3", (9, 9))]

/-! ## Helper lemmas -/

theorem jsNumberInt_empty : jsNumberInt "" = none := rfl

theorem parseSigHeader_empty : parseSigHeader "" = [] := rfl

theorem timingSafeEqual_self (a : String) : timingSafeEqual a a = true := by
  simp [timingSafeEqual]

/-! ## C3: freshness window -/

/-- C3: with a header whose timestamp field parses to the integer ts,
verification returns false whenever the distance between now and ts
exceeds 300 seconds, whatever the signature; and whenever the distance
is at most 300 (the boundary included) and the mode-selected signature
field equals the recomputed digest, verification returns true. -/
theorem c3_freshness_window (hmacHex : String → String) (mode : String)
    (now : Int) (rawBody : String) (h : String) (tstr : String) (ts : Int)
    (ht : getPart (parseSigHeader h) "t" = some tstr)
    (hts : jsNumberInt tstr = some ts) :
    ((now - ts).natAbs > 300 →
      verifyWebhookSignature hmacHex mode now rawBody (some h) = false) ∧
    (∀ sig, getPart (parseSigHeader h) (signatureKeyFor mode) = some sig →
      sig = hmacHex (tstr ++ "." ++ rawBody) → sig ≠ "" →
      (now - ts).natAbs ≤ 300 →
      verifyWebhookSignature hmacHex mode now rawBody (some h) = true) := by
  have hE : h ≠ "" := by
    intro hcon
    rw [hcon, parseSigHeader_empty] at ht
    simp [getPart] at ht
  have htne : tstr ≠ "" := by
    intro hcon
    rw [hcon, jsNumberInt_empty] at hts
    exact Option.noConfusion hts
  constructor
  · intro habs
    simp only [verifyWebhookSignature, if_neg hE]
    rw [ht]
    cases hsig : getPart (parseSigHeader h) (signatureKeyFor mode) with
    | none => simp [verifyFromParts]
    | some sig =>
      by_cases hs0 : sig = ""
      · simp [verifyFromParts, hs0]
      · simp only [verifyFromParts]
        rw [if_neg (by simp [htne, hs0]), hts]
        simp [habs]
  · intro sig hsig hsigeq hsne hle
    simp only [verifyWebhookSignature, if_neg hE]
    rw [ht, hsig]
    simp only [verifyFromParts]
    rw [if_neg (by simp [htne, hsne]), hts]
    show (if (now - ts).natAbs > 300 then false
      else timingSafeEqual (hmacHex (tstr ++ "." ++ rawBody)) sig) = true
    rw [if_neg (by omega), hsigeq]
    exact timingSafeEqual_self _

/-- C3 witness: with a constant digest function, a signed header with
timestamp 1000 is accepted at now 1299 and 1300 and rejected at 1301. -/
theorem c3_witness :
    verifyWebhookSignature (fun _ => "dead") "test" 1299 "b"
      (some "t=1000,te=dead") = true ∧
    verifyWebhookSignature (fun _ => "dead") "test" 1300 "b"
      (some "t=1000,te=dead") = true ∧
    verifyWebhookSignature (fun _ => "dead") "test" 1301 "b"
      (some "t=1000,te=dead") = false := by
  refine ⟨?_, ?_, ?_⟩
  · exact (c3_freshness_window (fun _ => "dead") "test" 1299 "b"
      "t=1000,te=dead" "1000" 1000 (by decide) (by decide)).2 "dead"
      (by decide) (by decide) (by decide) (by decide)
  · exact (c3_freshness_window (fun _ => "dead") "test" 1300 "b"
      "t=1000,te=dead" "1000" 1000 (by decide) (by decide)).2 "dead"
      (by decide) (by decide) (by decide) (by decide)
  · exact (c3_freshness_window (fun _ => "dead") "test" 1301 "b"
      "t=1000,te=dead" "1000" 1000 (by decide) (by decide)).1 (by decide)

theorem verifyFromParts_none_left (hmacHex : String → String) (now : Int)
    (rawBody : String) (sigPart : Option String) :
    verifyFromParts hmacHex now rawBody none sigPart = false := by
  cases sigPart <;> rfl

/-! ## C4: totality and false on malformed input -/

/-- C4: the verifier is a total Bool-valued function of its inputs (no
exception can escape: the embedding is a total function), and it
returns false on every malformed input: a missing header, an empty
header, a header without a timestamp entry, a header without the
mode-selected signature entry, a timestamp that does not parse to a
finite number, and a signature whose length differs from the recomputed
digest (the length guard of timingSafeEqual). -/
theorem c4_verify_total_false_on_bad_input (hmacHex : String → String)
    (mode : String) (now : Int) (rawBody : String) :
    verifyWebhookSignature hmacHex mode now rawBody none = false ∧
    verifyWebhookSignature hmacHex mode now rawBody (some "") = false ∧
    (∀ h, getPart (parseSigHeader h) "t" = none →
      verifyWebhookSignature hmacHex mode now rawBody (some h) = false) ∧
    (∀ h, getPart (parseSigHeader h) (signatureKeyFor mode) = none →
      verifyWebhookSignature hmacHex mode now rawBody (some h) = false) ∧
    (∀ h tstr, getPart (parseSigHeader h) "t" = some tstr →
      jsNumberInt tstr = none →
      verifyWebhookSignature hmacHex mode now rawBody (some h) = false) ∧
    (∀ h tstr sig, getPart (parseSigHeader h) "t" = some tstr →
      getPart (parseSigHeader h) (signatureKeyFor mode) = some sig →
      (hmacHex (tstr ++ "." ++ rawBody)).length ≠ sig.length →
      verifyWebhookSignature hmacHex mode now rawBody (some h) = false) := by
  refine ⟨rfl, by simp [verifyWebhookSignature], ?_, ?_, ?_, ?_⟩
  · intro h ht
    by_cases hE : h = ""
    · subst hE; simp [verifyWebhookSignature]
    · simp only [verifyWebhookSignature, if_neg hE]
      rw [ht]
      exact verifyFromParts_none_left ..
  · intro h hs
    by_cases hE : h = ""
    · subst hE; simp [verifyWebhookSignature]
    · simp only [verifyWebhookSignature, if_neg hE]
      rw [hs]
      cases hT : getPart (parseSigHeader h) "t" <;> rfl
  · intro h tstr ht hts
    by_cases hE : h = ""
    · subst hE; simp [verifyWebhookSignature]
    · simp only [verifyWebhookSignature, if_neg hE]
      rw [ht]
      cases hsig : getPart (parseSigHeader h) (signatureKeyFor mode) with
      | none => rfl
      | some sig =>
        simp only [verifyFromParts]
        split_ifs with h0
        · rfl
        · rw [hts]
  · intro h tstr sig ht hsig hlen
    by_cases hE : h = ""
    · subst hE; simp [verifyWebhookSignature]
    · simp only [verifyWebhookSignature, if_neg hE]
      rw [ht, hsig]
      simp only [verifyFromParts]
      split_ifs with h0
      · rfl
      · cases hts : jsNumberInt tstr with
        | none => rfl
        | some ts =>
          show (if (now - ts).natAbs > 300 then false
            else timingSafeEqual (hmacHex (tstr ++ "." ++ rawBody)) sig) = false
          split_ifs with h1
          · rfl
          · simp [timingSafeEqual, hlen]

/-- C4 witness: concrete malformed inputs all verify to false. -/
theorem c4_witness :
    verifyWebhookSignature (fun _ => "dead") "test" 0 "b" none = false ∧
    verifyWebhookSignature (fun _ => "dead") "test" 0 "b" (some "") = false ∧
    verifyWebhookSignature (fun _ => "dead") "test" 0 "b"
      (some "te=dead") = false ∧
    verifyWebhookSignature (fun _ => "dead") "test" 0 "b"
      (some "t=10,li=dead") = false ∧
    verifyWebhookSignature (fun _ => "dead") "test" 10 "b"
      (some "t=zz,te=dead") = false ∧
    verifyWebhookSignature (fun _ => "dead") "test" 10 "b"
      (some "t=10,te=deadbeef") = false := by
  have h := c4_verify_total_false_on_bad_input (fun _ => "dead") "test" 0 "b"
  have h10 := c4_verify_total_false_on_bad_input (fun _ => "dead") "test" 10 "b"
  refine ⟨h.1, h.2.1, ?_, ?_, ?_, ?_⟩
  · exact h.2.2.1 "te=dead" (by decide)
  · exact h.2.2.2.1 "t=10,li=dead" (by decide)
  · exact h10.2.2.2.2.1 "t=zz,te=dead" "zz" (by decide) (by decide)
  · exact h10.2.2.2.2.2 "t=10,te=deadbeef" "10" "deadbeef" (by decide)
      (by decide) (by decide)

/-! ## C10: mode selection -/

/-- C10: the live signature field li is selected exactly when the
configured mode lowercases to live; any other mode value, the default
test among them, selects te; and the verification result depends only
on the timestamp entry and the selected entry of the header, so the
entry of the non-selected mode is ignored. -/
theorem c10_mode_selection :
    (∀ mode : String,
      (signatureKeyFor mode = "li" ↔ toLowerStr mode = "live") ∧
      (toLowerStr mode ≠ "live" → signatureKeyFor mode = "te")) ∧
    signatureKeyFor "test" = "te" ∧
    signatureKeyFor "LIVE" = "li" ∧
    signatureKeyFor "liv" = "te" ∧
    (∀ (hmacHex : String → String) (mode : String) (now : Int)
      (rawBody : String) (h1 h2 : String),
      getPart (parseSigHeader h1) "t" = getPart (parseSigHeader h2) "t" →
      getPart (parseSigHeader h1) (signatureKeyFor mode) =
        getPart (parseSigHeader h2) (signatureKeyFor mode) →
      verifyWebhookSignature hmacHex mode now rawBody (some h1) =
        verifyWebhookSignature hmacHex mode now rawBody (some h2)) := by
  refine ⟨?_, by decide, by decide, by decide, ?_⟩
  · intro mode
    constructor
    · unfold signatureKeyFor
      split_ifs with hm
      · simp [hm]
      · simp [hm]
    · intro hm
      simp [signatureKeyFor, hm]
  · intro hmacHex mode now rawBody h1 h2 ht hs
    by_cases h1E : h1 = "" <;> by_cases h2E : h2 = ""
    · rw [h1E, h2E]
    · subst h1E
      have ht2 : getPart (parseSigHeader h2) "t" = none := ht.symm
      have hv2 : verifyWebhookSignature hmacHex mode now rawBody (some h2) = false := by
        simp only [verifyWebhookSignature, if_neg h2E]
        rw [ht2]
        exact verifyFromParts_none_left ..
      rw [hv2]
      simp [verifyWebhookSignature]
    · subst h2E
      have ht1 : getPart (parseSigHeader h1) "t" = none := ht
      have hv1 : verifyWebhookSignature hmacHex mode now rawBody (some h1) = false := by
        simp only [verifyWebhookSignature, if_neg h1E]
        rw [ht1]
        exact verifyFromParts_none_left ..
      rw [hv1]
      simp [verifyWebhookSignature]
    · simp only [verifyWebhookSignature, if_neg h1E, if_neg h2E]
      rw [ht, hs]

/-- C10 witness: in live mode a header carrying only a te entry fails
while the same header with a li entry succeeds, and vice versa; a
mismatched mode string still selects te. -/
theorem c10_witness :
    signatureKeyFor "test" = "te" ∧
    signatureKeyFor "LIVE" = "li" ∧
    signatureKeyFor "liv" = "te" ∧
    verifyWebhookSignature (fun _ => "dead") "live" 10 "b"
      (some "t=10,li=dead,te=junk") =
      verifyWebhookSignature (fun _ => "dead") "live" 10 "b"
        (some "t=10,li=dead") := by
  have h := c10_mode_selection
  exact ⟨h.2.1, h.2.2.1, h.2.2.2.1,
    h.2.2.2.2 (fun _ => "dead") "live" 10 "b" "t=10,li=dead,te=junk"
      "t=10,li=dead" (by decide) (by decide)⟩

/-! ## Store helper lemmas -/

theorem lookup_updateEntry_ne {β : Type} (xs : List (String × β))
    {k k₂ : String} (v : β) (hne : k ≠ k₂) :
    (updateEntry xs k₂ v).lookup k = xs.lookup k := by
  induction xs with
  | nil => rfl
  | cons p rest ih =>
    obtain ⟨k', v'⟩ := p
    simp only [updateEntry]
    split_ifs with h
    · subst h
      have hbe : (k == k₂) = false := by simp [hne]
      simp [List.lookup, hbe]
    · cases hbe : (k == k') with
      | false => simp [List.lookup, hbe, ih]
      | true => simp [List.lookup, hbe]

theorem lookup_updateEntry_self {β : Type} (xs : List (String × β))
    {k : String} (v : β) {w : β} (hw : xs.lookup k = some w) :
    (updateEntry xs k v).lookup k = some v := by
  induction xs with
  | nil => simp [List.lookup] at hw
  | cons p rest ih =>
    obtain ⟨k', v'⟩ := p
    simp only [updateEntry]
    split_ifs with h
    · subst h
      simp [List.lookup]
    · have hbe : (k == k') = false := by simp [h]
      simp only [List.lookup, hbe] at hw ⊢
      exact ih hw

/-! ## C1: paid is terminal, reconciliation idempotent -/

/-- C1: an order whose paymentStatus is paid is never mutated by any
further webhook call (whatever the signature outcome, event type or
correlation), and an event resolving to it is acknowledged with 200
received and an unchanged store; a first valid paid event on a
non-paid order applies the transition, stamping paidAt with the time of
that call, and replaying the identical event leaves the store exactly as
after the first call, so paidAt is set exactly once. -/
theorem c1_paid_is_terminal (store : OrderStore) (oid : String)
    (od : PaymentOrder) (hod : store.lookup oid = some od) :
    (od.paymentStatus = "paid" →
      (∀ (sigValid : Bool) (event : Option WebhookEvent) (now : Nat),
        (reconcileWebhook store sigValid event now).2.lookup oid = some od) ∧
      (∀ (ev : WebhookEvent) (now : Nat), resolveOrderId store ev = some oid →
        reconcileWebhook store true (some ev) now = (.received, store))) ∧
    (∀ (ev : WebhookEvent) (t1 t2 : Nat),
      od.paymentStatus ≠ "paid" → od.status ≠ "paid" →
      ev.orderIdMeta = some oid → ev.eventType = some "payment.paid" →
      reconcileWebhook store true (some ev) t1 =
        (.received, updateEntry store oid
          { od with
            paymentStatus := "paid"
            status := "paid"
            paidAt := some t1
            paymentProvider := some "paymongo"
            paymentIntentId := ev.paymentIntentId
            paymentReference := ev.eventDataId
            updatedAt := some t1 }) ∧
      reconcileWebhook
          (updateEntry store oid
            { od with
              paymentStatus := "paid"
              status := "paid"
              paidAt := some t1
              paymentProvider := some "paymongo"
              paymentIntentId := ev.paymentIntentId
              paymentReference := ev.eventDataId
              updatedAt := some t1 })
          true (some ev) t2 =
        (.received, updateEntry store oid
          { od with
            paymentStatus := "paid"
            status := "paid"
            paidAt := some t1
            paymentProvider := some "paymongo"
            paymentIntentId := ev.paymentIntentId
            paymentReference := ev.eventDataId
            updatedAt := some t1 })) := by
  constructor
  · intro hpaid
    constructor
    · intro sigValid event now
      cases sigValid with
      | false => simp [reconcileWebhook, hod]
      | true =>
        cases event with
        | none => simp [reconcileWebhook, hod]
        | some ev =>
          cases hres : resolveOrderId store ev with
          | none => simp [reconcileWebhook, hres, hod]
          | some oid' =>
            cases hlook : store.lookup oid' with
            | none => simp [reconcileWebhook, hres, hlook, hod]
            | some od' =>
              by_cases hg : od'.paymentStatus = "paid" ∨ od'.status = "paid"
              · simp [reconcileWebhook, hres, hlook, hg, hod]
              · have hne : oid ≠ oid' := by
                  intro hcon
                  rw [← hcon, hod] at hlook
                  injection hlook with h'
                  subst h'
                  exact hg (Or.inl hpaid)
                by_cases hev1 : ev.eventType = some "payment.paid"
                · simp [reconcileWebhook, hres, hlook, hg, hev1,
                    lookup_updateEntry_ne store _ hne, hod]
                · by_cases hev2 : ev.eventType = some "payment.failed" ∨
                      ev.eventType = some "qrph.expired"
                  · simp [reconcileWebhook, hres, hlook, hg, hev1, hev2,
                      lookup_updateEntry_ne store _ hne, hod]
                  · simp [reconcileWebhook, hres, hlook, hg, hev1, hev2, hod]
    · intro ev now hres
      simp [reconcileWebhook, hres, hod, Or.inl hpaid]
  · intro ev t1 t2 hnp hns hmeta hevt
    have hres : resolveOrderId store ev = some oid := by
      simp [resolveOrderId, hmeta]
    have hg : ¬(od.paymentStatus = "paid" ∨ od.status = "paid") :=
      not_or.mpr ⟨hnp, hns⟩
    constructor
    · simp [reconcileWebhook, hres, hod, hg, hevt]
    · have hres2 : resolveOrderId (updateEntry store oid
          { od with
            paymentStatus := "paid"
            status := "paid"
            paidAt := some t1
            paymentProvider := some "paymongo"
            paymentIntentId := ev.paymentIntentId
            paymentReference := ev.eventDataId
            updatedAt := some t1 }) ev =
          some oid := by
        simp [resolveOrderId, hmeta]
      have hlook2 := lookup_updateEntry_self store
        ({ od with
          paymentStatus := "paid"
          status := "paid"
          paidAt := some t1
          paymentProvider := some "paymongo"
          paymentIntentId := ev.paymentIntentId
          paymentReference := ev.eventDataId
          updatedAt := some t1 }) hod
      simp [reconcileWebhook, hres2, hlook2]

/-- C1 witness: in the demo store, the paid order o1 is untouched by a
duplicate paid event and the call answers received with an unchanged
store; the pending order o2 is paid exactly once across two identical
deliveries. -/
theorem c1_witness :
    (reconcileWebhook demoStore true (some demoEvDup) 7).2.lookup "o1" =
      some { paymentStatus := "paid", status := "paid", paidAt := some 1 } ∧
    reconcileWebhook demoStore true (some demoEvDup) 7 =
      (.received, demoStore) ∧
    reconcileWebhook demoStore true (some demoEvPaid) 7 =
      (.received, updateEntry demoStore "o2"
        { paymentStatus := "paid", status := "paid", paidAt := some 7,
          paymentProvider := some "paymongo", paymentIntentId := some "pi2",
          paymentReference := some "pay9", updatedAt := some 7 }) ∧
    reconcileWebhook (updateEntry demoStore "o2"
        { paymentStatus := "paid", status := "paid", paidAt := some 7,
          paymentProvider := some "paymongo", paymentIntentId := some "pi2",
          paymentReference := some "pay9", updatedAt := some 7 })
      true (some demoEvPaid) 9 =
      (.received, updateEntry demoStore "o2"
        { paymentStatus := "paid", status := "paid", paidAt := some 7,
          paymentProvider := some "paymongo", paymentIntentId := some "pi2",
          paymentReference := some "pay9", updatedAt := some 7 }) := by
  have h1 := c1_paid_is_terminal demoStore "o1"
    { paymentStatus := "paid", status := "paid", paidAt := some 1 } (by decide)
  have h2 := c1_paid_is_terminal demoStore "o2"
    { paymentStatus := "pending", status := "pending",
      paymentIntentId := some "pi2" } (by decide)
  have hrep := h2.2 demoEvPaid 7 9 (by decide) (by decide) (by decide) (by decide)
  exact ⟨(h1.1 (by decide)).1 true (some demoEvDup) 7,
    (h1.1 (by decide)).2 demoEvDup 7 (by decide), hrep.1, hrep.2⟩

/-! ## C8: response policy -/

/-- C8: the webhook route answers 400 exactly on an invalid signature or
an unparseable payload, and 200 received on every other outcome; an
event whose type is none of payment.paid, payment.failed and
qrph.expired leaves the store unchanged. -/
theorem c8_response_policy (store : OrderStore) (sigValid : Bool)
    (event : Option WebhookEvent) (now : Nat) :
    (sigValid = false →
      reconcileWebhook store sigValid event now = (.invalidSignature, store)) ∧
    (sigValid = true → event = none →
      reconcileWebhook store sigValid event now = (.invalidPayload, store)) ∧
    (∀ ev, sigValid = true → event = some ev →
      (reconcileWebhook store sigValid event now).1 = .received) ∧
    (∀ ev, event = some ev →
      ev.eventType ≠ some "payment.paid" →
      ev.eventType ≠ some "payment.failed" →
      ev.eventType ≠ some "qrph.expired" →
      (reconcileWebhook store sigValid event now).2 = store) := by
  refine ⟨?_, ?_, ?_, ?_⟩
  · intro hsv
    subst hsv
    simp [reconcileWebhook]
  · intro hsv hev
    subst hsv hev
    simp [reconcileWebhook]
  · intro ev hsv hev
    subst hsv hev
    cases hres : resolveOrderId store ev with
    | none => simp [reconcileWebhook, hres]
    | some oid =>
      cases hlook : store.lookup oid with
      | none => simp [reconcileWebhook, hres, hlook]
      | some od =>
        by_cases hg : od.paymentStatus = "paid" ∨ od.status = "paid"
        · simp [reconcileWebhook, hres, hlook, hg]
        · by_cases hev1 : ev.eventType = some "payment.paid"
          · simp [reconcileWebhook, hres, hlook, hg, hev1]
          · by_cases hev2 : ev.eventType = some "payment.failed" ∨
                ev.eventType = some "qrph.expired"
            · simp [reconcileWebhook, hres, hlook, hg, hev1, hev2]
            · simp [reconcileWebhook, hres, hlook, hg, hev1, hev2]
  · intro ev hev hp hf hx
    subst hev
    cases sigValid with
    | false => simp [reconcileWebhook]
    | true =>
      cases hres : resolveOrderId store ev with
      | none => simp [reconcileWebhook, hres]
      | some oid =>
        cases hlook : store.lookup oid with
        | none => simp [reconcileWebhook, hres, hlook]
        | some od =>
          by_cases hg : od.paymentStatus = "paid" ∨ od.status = "paid"
          · simp [reconcileWebhook, hres, hlook, hg]
          · have hev2 : ¬(ev.eventType = some "payment.failed" ∨
                ev.eventType = some "qrph.expired") := not_or.mpr ⟨hf, hx⟩
            simp [reconcileWebhook, hres, hlook, hg, hp, hev2]

/-- C8 witness: concrete calls showing the 400 cases, a 200 on an
unmatched event, a 200 on a duplicate, and an unrecognized event type
leaving the store unchanged. -/
theorem c8_witness :
    reconcileWebhook demoStore false (some demoEvPaid) 7 =
      (.invalidSignature, demoStore) ∧
    reconcileWebhook demoStore true none 7 = (.invalidPayload, demoStore) ∧
    (reconcileWebhook demoStore true
      (some { eventType := some "payment.paid", orderIdMeta := some "nope" })
      7).1 = .received ∧
    (reconcileWebhook demoStore true (some demoEvDup) 7).1 = .received ∧
    (reconcileWebhook demoStore true
      (some { eventType := some "payment.unknown", orderIdMeta := some "o2" })
      7).2 = demoStore := by
  refine ⟨?_, ?_, ?_, ?_, ?_⟩
  · exact (c8_response_policy demoStore false (some demoEvPaid) 7).1 rfl
  · exact (c8_response_policy demoStore true none 7).2.1 rfl rfl
  · exact (c8_response_policy demoStore true
      (some { eventType := some "payment.paid", orderIdMeta := some "nope" })
      7).2.2.1 _ rfl rfl
  · exact (c8_response_policy demoStore true (some demoEvDup) 7).2.2.1 _ rfl rfl
  · exact (c8_response_policy demoStore true
      (some { eventType := some "payment.unknown", orderIdMeta := some "o2" })
      7).2.2.2 _ rfl (by decide) (by decide) (by decide)

/-! ## Dispatch helper lemmas -/

theorem attemptAssign_keeps (st : DispatchState) {bid : String} {b : Booking}
    (hb : st.bookings.lookup bid = some b)
    (hstat : b.dispatchStatus = "assigned") {bid' rid : String} {now : Nat}
    {st' : DispatchState} (h : attemptAssign st bid' rid now = some st') :
    st'.bookings.lookup bid = some b := by
  by_cases heq : bid' = bid
  · subst heq
    simp only [attemptAssign, hb] at h
    rw [if_pos (Or.inr (by rw [hstat]; decide))] at h
    exact absurd h (by simp)
  · cases hlb : st.bookings.lookup bid' with
    | none => simp [attemptAssign, hlb] at h
    | some b2 =>
      simp only [attemptAssign, hlb] at h
      by_cases hg : b2.adminStatus ≠ "approved" ∨ b2.dispatchStatus ≠ "pending"
      · simp [hg] at h
      · rw [if_neg hg] at h
        cases hlr : st.riders.lookup rid with
        | none => simp [hlr] at h
        | some r =>
          simp only [hlr] at h
          split at h
          · exact absurd h (by simp)
          · injection h with h'
            subst h'
            simpa [lookup_updateEntry_ne st.bookings _
              (fun hc => heq hc.symm)] using hb

theorem runAttempts_keeps_assigned (distKm : ℚ × ℚ → ℚ × ℚ → ℚ)
    (radiusKm : ℚ) (now : Nat) (txThrows : Nat → Bool) (txRuns : Nat → Nat)
    (avail : List (String × (ℚ × ℚ))) {bid : String} {b : Booking}
    (hstat : b.dispatchStatus = "assigned") :
    ∀ (snapshot : List (String × Booking)) (k assigned : Nat)
      (st : DispatchState), st.bookings.lookup bid = some b →
      (loopState (runAttempts distKm radiusKm now txThrows txRuns avail
        snapshot k assigned st)).bookings.lookup bid = some b
  | [], k, assigned, st, hb => by simpa [runAttempts, loopState] using hb
  | (bid', b') :: rest, k, assigned, st, hb => by
    cases hpk : b'.pickup with
    | none =>
      simp only [runAttempts, hpk]
      exact runAttempts_keeps_assigned distKm radiusKm now txThrows txRuns
        avail hstat rest k assigned st hb
    | some pickup =>
      cases hcand : selectCandidates (distKm pickup) radiusKm avail with
      | nil =>
        simp only [runAttempts, hpk, hcand]
        exact runAttempts_keeps_assigned distKm radiusKm now txThrows txRuns
          avail hstat rest k assigned st hb
      | cons chosen cs =>
        simp only [runAttempts, hpk, hcand]
        by_cases hthrow : txThrows k
        · simpa [hthrow, loopState] using hb
        · simp only [hthrow, Bool.false_eq_true, if_false]
          cases hatt : attemptAssign st bid' chosen.1 now with
          | none =>
            exact runAttempts_keeps_assigned distKm radiusKm now txThrows
              txRuns avail hstat rest (k + 1) assigned st hb
          | some st' =>
            exact runAttempts_keeps_assigned distKm radiusKm now txThrows
              txRuns avail hstat rest (k + 1) (assigned + max 1 (txRuns k)) st'
              (attemptAssign_keeps st hb hstat hatt)

/-! ## C2: transactional assignment guard -/

/-- C2: one transaction closure run aborts with no mutation whenever the
re-read booking fails the adminStatus approved and dispatchStatus
pending check or the re-read rider is not available; when all re-checks
pass it produces, in one step, the state with the booking set to
assigned, matched and the chosen rider and with that rider set busy;
and a booking whose dispatchStatus is already assigned is left exactly
as it is by a whole subsequent dispatch cycle. -/
theorem c2_assignment_transaction (st : DispatchState) (bid rid : String)
    (now : Nat) :
    (∀ b, st.bookings.lookup bid = some b →
      b.adminStatus ≠ "approved" ∨ b.dispatchStatus ≠ "pending" →
      attemptAssign st bid rid now = none) ∧
    (∀ b r, st.bookings.lookup bid = some b →
      st.riders.lookup rid = some r → r.riderStatus ≠ "available" →
      attemptAssign st bid rid now = none) ∧
    (∀ b r, st.bookings.lookup bid = some b →
      st.riders.lookup rid = some r →
      b.adminStatus = "approved" → b.dispatchStatus = "pending" →
      r.riderStatus = "available" →
      attemptAssign st bid rid now = some
        { bookings := updateEntry st.bookings bid
            { b with
              riderId := some rid
              dispatchStatus := "assigned"
              status := "matched"
              matchedAt := some now
              updatedAt := some now }
          riders := updateEntry st.riders rid
            { r with riderStatus := "busy", updatedAt := some now } }) ∧
    (∀ b, st.bookings.lookup bid = some b → b.dispatchStatus = "assigned" →
      ∀ (distKm : ℚ × ℚ → ℚ × ℚ → ℚ) (radiusKm : ℚ) (now' : Nat)
        (readsFail : Bool) (txThrows : Nat → Bool) (txRuns : Nat → Nat),
        (cycleState (runDispatchCycle distKm radiusKm now' readsFail txThrows
          txRuns st)).bookings.lookup bid = some b) := by
  refine ⟨?_, ?_, ?_, ?_⟩
  · intro b hb hg
    simp [attemptAssign, hb, hg]
  · intro b r hb hr hrs
    simp only [attemptAssign, hb]
    by_cases hg : b.adminStatus ≠ "approved" ∨ b.dispatchStatus ≠ "pending"
    · simp [hg]
    · simp [hg, hr, hrs]
  · intro b r hb hr ha hd hrs
    simp only [attemptAssign, hb]
    rw [if_neg (by simp [ha, hd])]
    simp only [hr]
    rw [if_neg (by simp [hrs])]
  · intro b hb hstat distKm radiusKm now' readsFail txThrows txRuns
    cases readsFail with
    | true => simpa [runDispatchCycle, cycleState] using hb
    | false =>
      simp only [runDispatchCycle, Bool.false_eq_true, if_false]
      by_cases hemp : (st.bookings.filter (fun p =>
          p.2.adminStatus == "approved" && p.2.dispatchStatus == "pending")).isEmpty
      · simpa [hemp, cycleState] using hb
      · simp only [hemp, Bool.false_eq_true, if_false]
        have hkeep := runAttempts_keeps_assigned distKm radiusKm now' txThrows
          txRuns (availableRiders st.riders) hstat
          (st.bookings.filter (fun p =>
            p.2.adminStatus == "approved" && p.2.dispatchStatus == "pending"))
          0 0 st hb
        cases hrun : runAttempts distKm radiusKm now' txThrows txRuns
            (availableRiders st.riders)
            (st.bookings.filter (fun p =>
              p.2.adminStatus == "approved" && p.2.dispatchStatus == "pending"))
            0 0 st with
        | ok p =>
          obtain ⟨a, st'⟩ := p
          rw [hrun] at hkeep
          simpa [cycleState, loopState] using hkeep
        | error st' =>
          rw [hrun] at hkeep
          simpa [cycleState, loopState] using hkeep

/-- C2 witness: in the demo dispatch store, the already-assigned booking
b0 cannot be assigned again, a busy rider aborts the attempt, a passing
re-check commits both updates at once, and a full cycle leaves b0
untouched. -/
theorem c2_witness :
    attemptAssign demoDispatch "b0" "r1" 5 = none ∧
    attemptAssign demoDispatch "b1" "r2" 5 = none ∧
    attemptAssign demoDispatch "b1" "r1" 5 = some
      { bookings := updateEntry demoDispatch.bookings "b1"
          { adminStatus := "approved", dispatchStatus := "assigned",
            status := "matched", riderId := some "r1", pickup := some (0, 0),
            matchedAt := some 5, updatedAt := some 5 }
        riders := updateEntry demoDispatch.riders "r1"
          { riderStatus := "busy", currentLocation := some (0, 0),
            updatedAt := some 5 } } ∧
    (cycleState (runDispatchCycle (fun _ _ => 0) 10 5 false (fun _ => false)
      (fun _ => 1) demoDispatch)).bookings.lookup "b0" = some
      { adminStatus := "approved", dispatchStatus := "assigned",
        status := "matched", riderId := some "r9", pickup := some (3, 3) } := by
  have h := c2_assignment_transaction demoDispatch
  refine ⟨?_, ?_, ?_, ?_⟩
  · exact (h "b0" "r1" 5).1
      { adminStatus := "approved", dispatchStatus := "assigned",
        status := "matched", riderId := some "r9", pickup := some (3, 3) }
      (by decide) (by decide)
  · exact (h "b1" "r2" 5).2.1
      { adminStatus := "approved", dispatchStatus := "pending",
        status := "approved", pickup := some (0, 0) }
      { riderStatus := "busy", currentLocation := some (0, 0) }
      (by decide) (by decide) (by decide)
  · exact (h "b1" "r1" 5).2.2.1
      { adminStatus := "approved", dispatchStatus := "pending",
        status := "approved", pickup := some (0, 0) }
      { riderStatus := "available", currentLocation := some (0, 0) }
      (by decide) (by decide) (by decide) (by decide) (by decide)
  · exact (h "b0" "r1" 5).2.2.2
      { adminStatus := "approved", dispatchStatus := "assigned",
        status := "matched", riderId := some "r9", pickup := some (3, 3) }
      (by decide) (by decide) (fun _ _ => 0) 10 5 false (fun _ => false)
      (fun _ => 1)

/-! ## C6: the assigned counter double counts on a retried closure -/

unseal List.merge List.mergeSort in
/-- C6: evaluation at the failing input.  With one approved pending
booking and one available rider, a cycle whose single transaction
closure runs once returns assigned 1; the same cycle whose closure is
rerun once by the store client after an optimistic conflict (txRuns 2)
commits exactly one assignment - the final store is identical and holds
exactly one assigned booking - yet returns assigned 2, because the
source increments the counter inside the transaction closure. -/
theorem c6_retry_inflates_assigned :
    runDispatchCycle (fun _ _ => 0) 10 5 false (fun _ => false) (fun _ => 1)
      demoDispatchOne = .ok 1 1 demoDispatchOneAfter ∧
    runDispatchCycle (fun _ _ => 0) 10 5 false (fun _ => false) (fun _ => 2)
      demoDispatchOne = .ok 1 2 demoDispatchOneAfter ∧
    (demoDispatchOneAfter.bookings.filter
      (fun p => p.2.dispatchStatus == "assigned")).length = 1 := by
  refine ⟨by decide, by decide, by decide⟩

/-! ## C7: failure semantics of the cycle -/

unseal List.merge List.mergeSort in
/-- C7 counterexample: two approved pending bookings, two available
riders; the transaction of the first booking throws.  The claim says the
cycle continues to the next pending order; the code instead answers the
500 dispatch_failed response of the outer catch with the store
untouched, so the second booking is still pending and was never
assigned. -/
theorem c7_counterexample :
    runDispatchCycle (fun _ _ => 0) 10 5 false (fun k => k == 0)
      (fun _ => 1) demoDispatchTwo = CycleResult.fail demoDispatchTwo ∧
    (demoDispatchTwo.bookings.lookup "b2").map Booking.dispatchStatus =
      some "pending" := by
  refine ⟨by decide, by decide⟩

theorem runAttempts_ok_of_noThrow (distKm : ℚ × ℚ → ℚ × ℚ → ℚ)
    (radiusKm : ℚ) (now : Nat) (txThrows : Nat → Bool) (txRuns : Nat → Nat)
    (avail : List (String × (ℚ × ℚ))) (hno : ∀ k', txThrows k' = false) :
    ∀ (snapshot : List (String × Booking)) (k assigned : Nat)
      (st : DispatchState), ∃ out,
      runAttempts distKm radiusKm now txThrows txRuns avail
        snapshot k assigned st = .ok out
  | [], k, assigned, st => ⟨(assigned, st), rfl⟩
  | (bid', b') :: rest, k, assigned, st => by
    cases hpk : b'.pickup with
    | none =>
      simpa [runAttempts, hpk] using
        runAttempts_ok_of_noThrow distKm radiusKm now txThrows txRuns avail
          hno rest k assigned st
    | some pickup =>
      cases hcand : selectCandidates (distKm pickup) radiusKm avail with
      | nil =>
        simpa [runAttempts, hpk, hcand] using
          runAttempts_ok_of_noThrow distKm radiusKm now txThrows txRuns avail
            hno rest k assigned st
      | cons chosen cs =>
        simp only [runAttempts, hpk, hcand, hno k, Bool.false_eq_true,
          if_false]
        cases hatt : attemptAssign st bid' chosen.1 now with
        | none =>
          exact runAttempts_ok_of_noThrow distKm radiusKm now txThrows txRuns
            avail hno rest (k + 1) assigned st
        | some st' =>
          exact runAttempts_ok_of_noThrow distKm radiusKm now txThrows txRuns
            avail hno rest (k + 1) (assigned + max 1 (txRuns k)) st'

theorem runAttempts_error_has_throw (distKm : ℚ × ℚ → ℚ × ℚ → ℚ)
    (radiusKm : ℚ) (now : Nat) (txThrows : Nat → Bool) (txRuns : Nat → Nat)
    (avail : List (String × (ℚ × ℚ))) :
    ∀ (snapshot : List (String × Booking)) (k assigned : Nat)
      (st st'' : DispatchState),
      runAttempts distKm radiusKm now txThrows txRuns avail
        snapshot k assigned st = .error st'' →
      ∃ k', txThrows k' = true
  | [], k, assigned, st, st'', h => by simp [runAttempts] at h
  | (bid', b') :: rest, k, assigned, st, st'', h => by
    cases hpk : b'.pickup with
    | none =>
      simp only [runAttempts, hpk] at h
      exact runAttempts_error_has_throw distKm radiusKm now txThrows txRuns
        avail rest k assigned st st'' h
    | some pickup =>
      simp only [runAttempts, hpk] at h
      cases hcand : selectCandidates (distKm pickup) radiusKm avail with
      | nil =>
        simp only [hcand] at h
        exact runAttempts_error_has_throw distKm radiusKm now txThrows txRuns
          avail rest k assigned st st'' h
      | cons chosen cs =>
        simp only [hcand] at h
        by_cases hthrow : txThrows k
        · exact ⟨k, hthrow⟩
        · simp only [hthrow, Bool.false_eq_true, if_false] at h
          cases hatt : attemptAssign st bid' chosen.1 now with
          | none =>
            simp only [hatt] at h
            exact runAttempts_error_has_throw distKm radiusKm now txThrows
              txRuns avail rest (k + 1) assigned st st'' h
          | some st' =>
            simp only [hatt] at h
            exact runAttempts_error_has_throw distKm radiusKm now txThrows
              txRuns avail rest (k + 1) (assigned + max 1 (txRuns k)) st' st'' h

/-- C7 amended: a store failure in the initial collection reads aborts
the whole cycle with the 500 error and an untouched store; if no
transaction invocation throws, the cycle always completes with the 200
counters whatever the in-transaction re-checks decide (a failed re-check
is a benign skip, never a cycle error); and whenever the cycle answers
the 500 error, either the initial reads failed or some transaction
invocation threw - a throwing transaction aborts the whole remaining
cycle rather than only that order. -/
theorem c7_amended_failure_semantics (distKm : ℚ × ℚ → ℚ × ℚ → ℚ)
    (radiusKm : ℚ) (now : Nat) (txThrows : Nat → Bool) (txRuns : Nat → Nat)
    (st : DispatchState) :
    runDispatchCycle distKm radiusKm now true txThrows txRuns st =
      .fail st ∧
    ((∀ k', txThrows k' = false) → ∃ scanned assigned st',
      runDispatchCycle distKm radiusKm now false txThrows txRuns st =
        .ok scanned assigned st') ∧
    (∀ (readsFail : Bool) (st'' : DispatchState),
      runDispatchCycle distKm radiusKm now readsFail txThrows txRuns st =
        .fail st'' →
      readsFail = true ∨ ∃ k', txThrows k' = true) := by
  refine ⟨rfl, ?_, ?_⟩
  · intro hno
    simp only [runDispatchCycle, Bool.false_eq_true, if_false]
    by_cases hemp : (st.bookings.filter (fun p =>
        p.2.adminStatus == "approved" && p.2.dispatchStatus == "pending")).isEmpty
    · exact ⟨0, 0, st, by simp [hemp]⟩
    · obtain ⟨⟨a, st'⟩, hout⟩ := runAttempts_ok_of_noThrow distKm radiusKm now
        txThrows txRuns (availableRiders st.riders) hno
        (st.bookings.filter (fun p =>
          p.2.adminStatus == "approved" && p.2.dispatchStatus == "pending"))
        0 0 st
      exact ⟨(st.bookings.filter (fun p =>
          p.2.adminStatus == "approved" &&
            p.2.dispatchStatus == "pending")).length,
        a, st', by simp [hemp, hout]⟩
  · intro readsFail st'' h
    cases readsFail with
    | true => exact Or.inl rfl
    | false =>
      refine Or.inr ?_
      simp only [runDispatchCycle, Bool.false_eq_true, if_false] at h
      by_cases hemp : (st.bookings.filter (fun p =>
          p.2.adminStatus == "approved" && p.2.dispatchStatus == "pending")).isEmpty
      · simp [hemp] at h
      · simp only [hemp, Bool.false_eq_true, if_false] at h
        cases hrun : runAttempts distKm radiusKm now txThrows txRuns
            (availableRiders st.riders)
            (st.bookings.filter (fun p =>
              p.2.adminStatus == "approved" && p.2.dispatchStatus == "pending"))
            0 0 st with
        | ok p =>
          rw [hrun] at h
          exact absurd h (by simp)
        | error st3 =>
          exact runAttempts_error_has_throw distKm radiusKm now txThrows
            txRuns (availableRiders st.riders) _ 0 0 st st3 hrun

unseal List.merge List.mergeSort in
/-- C7 witness for the amended statement, at the counterexample input:
failing initial reads give the 500 with the untouched store, a cycle
with no throwing transaction completes, and the failing cycle of the
counterexample implies some transaction threw. -/
theorem c7_witness :
    runDispatchCycle (fun _ _ => 0) 10 5 true (fun k => k == 0) (fun _ => 1)
      demoDispatchTwo = .fail demoDispatchTwo ∧
    (∃ scanned assigned st',
      runDispatchCycle (fun _ _ => 0) 10 5 false (fun _ => false) (fun _ => 1)
        demoDispatchTwo = .ok scanned assigned st') ∧
    (false = true ∨ ∃ k', ((k' == 0 : Bool)) = true) := by
  have h1 := c7_amended_failure_semantics (fun _ _ => 0) 10 5 (fun k => k == 0)
    (fun _ => 1) demoDispatchTwo
  have h2 := c7_amended_failure_semantics (fun _ _ => 0) 10 5 (fun _ => false)
    (fun _ => 1) demoDispatchTwo
  exact ⟨h1.1, h2.2.1 (fun _ => rfl),
    h1.2.2 false demoDispatchTwo (by decide)⟩

/-! ## C5: candidate selection -/

theorem candLe_trans : ∀ (a b c : String × ℚ),
    (fun a b : String × ℚ => decide (a.2 ≤ b.2)) a b = true →
    (fun a b : String × ℚ => decide (a.2 ≤ b.2)) b c = true →
    (fun a b : String × ℚ => decide (a.2 ≤ b.2)) a c = true := by
  intro a b c hab hbc
  simp only [decide_eq_true_eq] at hab hbc ⊢
  exact le_trans hab hbc

theorem candLe_total : ∀ (a b : String × ℚ),
    ((fun a b : String × ℚ => decide (a.2 ≤ b.2)) a b ||
      (fun a b : String × ℚ => decide (a.2 ≤ b.2)) b a) = true := by
  intro a b
  simp only [Bool.or_eq_true, decide_eq_true_eq]
  exact le_total _ _

theorem pairwise_candLe_of_const {l : List (String × ℚ)} {d : ℚ}
    (h : ∀ a ∈ l, a.2 = d) :
    l.Pairwise (fun a b => decide (a.2 ≤ b.2) = true) := by
  induction l with
  | nil => exact List.Pairwise.nil
  | cons a rest ih =>
    refine List.Pairwise.cons ?_ (ih (fun x hx => h x (List.mem_cons_of_mem a hx)))
    intro b hb
    have ha := h a (List.mem_cons_self a rest)
    have hbd := h b (List.mem_cons_of_mem a hb)
    simp [ha, hbd]

/-- C5: candidate selection returns exactly the riders within the
radius inclusive (a permutation of the filtered map, so no rider beyond
the radius and none within it missing or duplicated), sorted ascending
by distance; riders at equal distance keep their original scan order
(the filter of the result at any fixed distance equals the filter of
the scan-ordered input); and an empty rider list gives an empty result
rather than an error. -/
theorem c5_select_candidates_spec (distTo : ℚ × ℚ → ℚ) (radiusKm : ℚ)
    (riders : List (String × (ℚ × ℚ))) :
    (∀ c ∈ selectCandidates distTo radiusKm riders, c.2 ≤ radiusKm) ∧
    List.Pairwise (fun a b => a.2 ≤ b.2)
      (selectCandidates distTo radiusKm riders) ∧
    List.Perm (selectCandidates distTo radiusKm riders)
      ((riders.map (fun r => (r.1, distTo r.2))).filter
        (fun c => decide (c.2 ≤ radiusKm))) ∧
    (∀ d : ℚ,
      (selectCandidates distTo radiusKm riders).filter
          (fun c => decide (c.2 = d)) =
        ((riders.map (fun r => (r.1, distTo r.2))).filter
          (fun c => decide (c.2 ≤ radiusKm))).filter
            (fun c => decide (c.2 = d))) ∧
    (riders = [] → selectCandidates distTo radiusKm riders = []) := by
  have hperm : List.Perm (selectCandidates distTo radiusKm riders)
      ((riders.map (fun r => (r.1, distTo r.2))).filter
        (fun c => decide (c.2 ≤ radiusKm))) := by
    unfold selectCandidates
    exact List.mergeSort_perm _ _
  refine ⟨?_, ?_, hperm, ?_, ?_⟩
  · intro c hc
    have hc' := hperm.mem_iff.mp hc
    exact of_decide_eq_true (List.mem_filter.mp hc').2
  · have hsor := List.sorted_mergeSort candLe_trans candLe_total
      ((riders.map (fun r => (r.1, distTo r.2))).filter
        (fun c => decide (c.2 ≤ radiusKm)))
    exact hsor.imp (fun h => of_decide_eq_true h)
  · intro d
    have hmemA : ∀ a ∈ ((riders.map (fun r => (r.1, distTo r.2))).filter
        (fun c => decide (c.2 ≤ radiusKm))).filter
          (fun c => decide (c.2 = d)), a.2 = d :=
      fun a ha => of_decide_eq_true (List.mem_filter.mp ha).2
    have hsubA : List.Sublist
        (((riders.map (fun r => (r.1, distTo r.2))).filter
          (fun c => decide (c.2 ≤ radiusKm))).filter
            (fun c => decide (c.2 = d)))
        (selectCandidates distTo radiusKm riders) := by
      unfold selectCandidates
      exact List.sublist_mergeSort candLe_trans candLe_total
        (pairwise_candLe_of_const hmemA) (List.filter_sublist _)
    have hAp : (((riders.map (fun r => (r.1, distTo r.2))).filter
        (fun c => decide (c.2 ≤ radiusKm))).filter
          (fun c => decide (c.2 = d))).filter
            (fun c => decide (c.2 = d)) =
        ((riders.map (fun r => (r.1, distTo r.2))).filter
          (fun c => decide (c.2 ≤ radiusKm))).filter
            (fun c => decide (c.2 = d)) :=
      List.filter_eq_self.mpr (fun a ha => (List.mem_filter.mp ha).2)
    have hsubA' := hsubA.filter (fun c => decide (c.2 = d))
    rw [hAp] at hsubA'
    have hpermF := hperm.filter (fun c => decide (c.2 = d))
    exact (List.Sublist.eq_of_length hsubA'
      (hpermF.symm.length_eq)).symm
  · intro hnil
    subst hnil
    simp [selectCandidates]

/-- C5 witness: with distance given by the first coordinate and radius
2, the three demo riders give exactly the two in-radius ones, the tie
at distance 1 kept in scan order, and the empty rider list gives an
empty result. -/
theorem c5_witness :
    List.Perm (selectCandidates (fun p => p.1) 2 demoGeoRiders)
      [("r1", (1 : ℚ)), ("r2", 1)] ∧
    (selectCandidates (fun p => p.1) 2 demoGeoRiders).filter
      (fun c => decide (c.2 = 1)) = [("r1", (1 : ℚ)), ("r2", 1)] ∧
    selectCandidates (fun p => p.1) 2 [] = [] := by
  have h := c5_select_candidates_spec (fun p => p.1) 2 demoGeoRiders
  have hmap : (demoGeoRiders.map
      (fun r => (r.1, (fun p : ℚ × ℚ => p.1) r.2))).filter
        (fun c => decide (c.2 ≤ 2)) = [("r1", (1 : ℚ)), ("r2", 1)] := by decide
  have hmapF : ((demoGeoRiders.map
      (fun r => (r.1, (fun p : ℚ × ℚ => p.1) r.2))).filter
        (fun c => decide (c.2 ≤ 2))).filter
          (fun c => decide (c.2 = 1)) = [("r1", (1 : ℚ)), ("r2", 1)] := by
    decide
  refine ⟨?_, ?_, ?_⟩
  · have hp := h.2.2.1
    rw [hmap] at hp
    exact hp
  · have hs := h.2.2.2.1 1
    rw [hmapF] at hs
    exact hs
  · exact (c5_select_candidates_spec (fun p => p.1) 2 []).2.2.2.2 rfl

/-! ## C9: properties of the haversine distance -/

/-- C9 counterexample: two distinct coordinate pairs at latitude 90
with different longitudes have haversine distance zero, so the distance
is not zero only for identical pairs. -/
theorem c9_counterexample :
    haversineKm 90 10 90 20 = 0 ∧
    ((90 : ℝ), (10 : ℝ)) ≠ ((90 : ℝ), (20 : ℝ)) := by
  constructor
  · have hlat : (90 : ℝ) * Real.pi / 180 = Real.pi / 2 := by ring
    simp only [haversineKm, sub_self, zero_mul, zero_div, Real.sin_zero,
      hlat, Real.cos_pi_div_two]
    norm_num
  · intro h
    have := congrArg Prod.snd h
    norm_num at this

/-- C9 amended: the haversine distance is non-negative and symmetric,
and identical coordinate pairs have distance zero; the converse fails
(see the counterexample), since distinct pairs such as two points at a
pole can also map to distance zero. -/
theorem c9_amended_distance_props (lat1 lon1 lat2 lon2 : ℝ) :
    0 ≤ haversineKm lat1 lon1 lat2 lon2 ∧
    haversineKm lat1 lon1 lat2 lon2 = haversineKm lat2 lon2 lat1 lon1 ∧
    ((lat1, lon1) = (lat2, lon2) → haversineKm lat1 lon1 lat2 lon2 = 0) := by
  refine ⟨?_, ?_, ?_⟩
  · simp only [haversineKm]
    have harc : 0 ≤ Real.arcsin (Real.sqrt
        (Real.sin ((lat2 - lat1) * Real.pi / 180 / 2) ^ 2 +
          Real.cos (lat1 * Real.pi / 180) * Real.cos (lat2 * Real.pi / 180) *
            Real.sin ((lon2 - lon1) * Real.pi / 180 / 2) ^ 2)) :=
      Real.arcsin_nonneg.mpr (Real.sqrt_nonneg _)
    have h2 : (0 : ℝ) ≤ 2 * 6371 := by norm_num
    exact mul_nonneg h2 harc
  · simp only [haversineKm]
    have e1 : (lat1 - lat2) * Real.pi / 180 / 2 =
        -((lat2 - lat1) * Real.pi / 180 / 2) := by ring
    have e2 : (lon1 - lon2) * Real.pi / 180 / 2 =
        -((lon2 - lon1) * Real.pi / 180 / 2) := by ring
    rw [e1, e2, Real.sin_neg, Real.sin_neg, neg_sq, neg_sq]
    ring_nf
  · intro h
    have hlat : lat1 = lat2 := congrArg Prod.fst h
    have hlon : lon1 = lon2 := congrArg Prod.snd h
    subst hlat hlon
    simp [haversineKm]

/-- C9 witness: the amended statement instantiated at the origin pair
and at two Philippine city coordinates. -/
theorem c9_witness :
    0 ≤ haversineKm 0 0 0 0 ∧
    haversineKm (146 / 10) (12098 / 100) (1059 / 100) (12293 / 100) =
      haversineKm (1059 / 100) (12293 / 100) (146 / 10) (12098 / 100) ∧
    (((0 : ℝ), (0 : ℝ)) = ((0 : ℝ), (0 : ℝ)) → haversineKm 0 0 0 0 = 0) := by
  exact ⟨(c9_amended_distance_props 0 0 0 0).1,
    (c9_amended_distance_props (146 / 10) (12098 / 100) (1059 / 100)
      (12293 / 100)).2.1,
    (c9_amended_distance_props 0 0 0 0).2.2⟩

end PaymongoBackend
